import Mathlib

/-!
Shallow embedding of the deployment orchestration engine of the roughneck
CLI: the stage resolver, stage executor, recovery classifier, recovery
prompter, reselection flow and the `do_deploy` loop, translated from
`lib/cli/commands/core.py`, `lib/cli/commands/helpers.py`,
`lib/cli/prompts.py` and `lib/providers/hetzner.py`.  External
collaborators (terraform, ansible, the ssh probe, the configuration store,
the Hetzner API and the interactive prompt library) are modelled as
scripted inputs: each call site reads the corresponding field of an
environment record.
-/

/-- Truthiness of a Python optional string (`if ip:`): true exactly when the
value is present and non-empty. -/
def ipTruthy : Option String → Bool
  | none => false
  | some s => s != ""

/-- Modelled from the spec: the `FeatureConfig` slice of the deployment
snapshot returned by `config.read_tfvars` (`config.py` itself is not in the
source tree), restricted to the fields that `do_deploy` and the reselection
flow read or write. -/
structure Cfg where
  provider : String
  hetzner_token : String
  hetzner_server_type : String
  enable_letsencrypt : Bool
  domain_name : String
deriving Repr, DecidableEq

/-- `StageResult` from `helpers.py`: result of running a deployment stage. -/
structure StageResult where
  success : Bool
  error : String := ""
deriving Repr, DecidableEq

/-- The canonical stage order: `init`, `apply`, `ssh` (ConnectWait),
`ansible` (Configure). -/
def canonicalStages : List String := ["init", "apply", "ssh", "ansible"]

/-- Stage resolution at the top of `do_deploy` (`core.py` lines 23-35):
`ip = config.get_deployment_ip(name)` followed by the
`if ip and ssh.is_reachable(ip) / elif ip / elif config.has_state_file(name)
/ else` chain.  `reach` embeds `ssh.is_reachable`, `hasState` embeds
`config.has_state_file`. -/
def resolveStages (ip : Option String) (reach : String → Bool) (hasState : Bool) :
    List String :=
  if ipTruthy ip && reach (ip.getD "") then ["ansible"]
  else if ipTruthy ip then ["ssh", "ansible"]
  else if hasState then ["apply", "ssh", "ansible"]
  else ["init", "apply", "ssh", "ansible"]

/-- The four-way rule table exactly as the specification words it (§3
invariants and §8): a function of the triple
(ip present?, ip reachable?, persisted infra state exists?). -/
def specStageTable (present reach hasState : Bool) : List String :=
  if present && reach then ["ansible"]
  else if present then ["ssh", "ansible"]
  else if hasState then ["apply", "ssh", "ansible"]
  else ["init", "apply", "ssh", "ansible"]

/-- `prompts.select` (`prompts.py` lines 94-118): the operator either
cancels (questionary returns `None`) or picks one of the offered choices,
in which case the chosen choice's value is returned.  The pick is modelled
as an optional index into the choice list. -/
def select (choices : List (String × String)) (pick : Option Nat) : Option String :=
  match pick with
  | none => none
  | some i => (choices.get? i).map Prod.fst

/-- The quote character delimiting the two captured groups of the
server-type-unavailable diagnostic. -/
def quoteChar : Char := '"'

/-- Group character test: the regex class `[^"]`. -/
def notQuote : Char → Bool := fun c => c != quoteChar

/-- The literal part of the search pattern before the first capture group. -/
def lit1 : List Char := "Server Type \"".data

/-- The literal part of the search pattern between the two capture groups. -/
def lit2 : List Char := "\" is unavailable in \"".data

/-- Longest-prefix stripping of a literal: `some` of the remainder when `s`
starts with `p`. -/
def stripPfx : List Char → List Char → Option (List Char)
  | [], s => some s
  | _ :: _, [] => none
  | p :: ps, c :: cs => if p = c then stripPfx ps cs else none

/-- Capture one `[^"]+` group: the maximal run of non-quote characters,
which must be non-empty; returns the group and the rest. -/
def grabGroup (r : List Char) : Option (List Char × List Char) :=
  if (r.takeWhile notQuote).isEmpty then none
  else some (r.takeWhile notQuote, r.dropWhile notQuote)

/-- One attempt of the source regex anchored at the start of `s`: the
literal `Server Type "`, a first group, the literal `" is unavailable in "`,
a second group, and a closing quote.  Each group, being quote-free and
greedy, is exactly the maximal non-empty run of non-quote characters
followed by the next literal quote, so no backtracking can occur. -/
def matchAt (s : List Char) : Option (List Char × List Char) :=
  (stripPfx lit1 s).bind fun r1 =>
  (grabGroup r1).bind fun g1 =>
  (stripPfx lit2 g1.2).bind fun r3 =>
  (grabGroup r3).bind fun g2 =>
  if g2.2.isEmpty then none else some (g1.1, g2.1)

/-- `re.search`: try `matchAt` at every position, leftmost first. -/
def detectChars : List Char → Option (List Char × List Char)
  | [] => matchAt []
  | c :: cs =>
    match matchAt (c :: cs) with
    | some r => some r
    | none => detectChars cs

/-- `detect_server_type_error` (`helpers.py` lines 97-106): search the error
text for `Server Type "…" is unavailable in "…"` and return the two
captured groups, `None` otherwise. -/
def detect_server_type_error (error : String) : Option (String × String) :=
  (detectChars error.data).map fun p => (String.mk p.1, String.mk p.2)

/-- The encoded diagnostic shape with groups `T` and `L` spliced in. -/
def patEncode (T L : List Char) : List Char :=
  lit1 ++ T ++ lit2 ++ L ++ [quoteChar]

/-- The diagnostic shape `Server Type "T" is unavailable in "L"` occurring
at offset `i` of `s`, with non-empty quote-free groups `T` and `L`. -/
def PatAt (s : List Char) (i : Nat) (T L : List Char) : Prop :=
  T ≠ [] ∧ L ≠ [] ∧ (∀ c ∈ T, c ≠ quoteChar) ∧ (∀ c ∈ L, c ≠ quoteChar) ∧
    ∃ post, s.drop i = patEncode T L ++ post

/-- The ordered choice list built by `recovery_menu` (`helpers.py` lines
153-175): `retry` first; `reselect` inserted at index 0 on an `apply`
failure whose non-empty text the classifier matched; `edit` appended for
`apply`/`ansible`; `skip` appended for `apply`/`ssh`; `abort` appended
last. -/
def recoveryChoices (stage : String) (error : String) : List (String × String) :=
  let cs0 := [("retry", "Retry")]
  let cs1 :=
    if stage = "apply" ∧ error ≠ "" then
      match detect_server_type_error error with
      | some _ => ("reselect", "Select different server type") :: cs0
      | none => cs0
    else cs0
  let cs2 :=
    if stage = "apply" ∨ stage = "ansible" then cs1 ++ [("edit", "Edit configuration")]
    else cs1
  let cs3 :=
    if stage = "apply" ∨ stage = "ssh" then cs2 ++ [("skip", "Skip to next step")]
    else cs2
  cs3 ++ [("abort", "Abort (keep current state)")]

/-- `recovery_menu` (`helpers.py` lines 153-180): present the choices via
`prompts.select` and fall back to `"abort"` when the selection was
cancelled (`select` returned `None`). -/
def recovery_menu (stage : String) (error : String) (pick : Option Nat) : String :=
  (select (recoveryChoices stage error) pick).getD "abort"

/-- Scripted outcomes of the external collaborators one `run_stage` call
touches: `terraform.init`, `terraform.apply`, `config.get_deployment_ip`,
`ssh.wait_for_ssh` and `ansible.run_playbook`. -/
structure StageEnv where
  terraformInit : Bool
  terraformApply : StageResult
  getIp : Option String
  waitForSsh : String → Bool
  runPlaybook : Bool

/-- `run_stage` (`helpers.py` lines 202-224): dispatch one named stage to
its collaborator and normalise the outcome into a `StageResult`.  The `ssh`
stage with no (truthy) known IP succeeds without probing. -/
def run_stage (stage : String) (env : StageEnv) : StageResult :=
  if stage = "init" then { success := env.terraformInit }
  else if stage = "apply" then
    { success := env.terraformApply.success, error := env.terraformApply.error }
  else if stage = "ssh" then
    match env.getIp with
    | some ip => if ip != "" then { success := env.waitForSsh ip } else { success := true }
    | none => { success := true }
  else if stage = "ansible" then { success := env.runPlaybook }
  else { success := false }

/-- A Hetzner server-type record as used by the reselection flow: its name
(the choice value) and its display label (the result of
`hetzner.format_server_type`, pure display text whose floating-point price
formatting is not modelled and never affects control flow). -/
structure ServerTypeInfo where
  name : String
  label : String

/-- Scripted collaborators of the reselection flow: `config.read_tfvars`,
`hetzner.get_server_types` by location (which may raise `HetznerAPIError`,
modelled as `Except.error`), and the operator's pick in `prompts.select`;
`config.write_tfvars` is a side effect absorbed by the script. -/
structure FlowEnv where
  readTfvars : Option Cfg
  getServerTypes : String → Except String (List ServerTypeInfo)
  selectPick : Option Nat

/-- `reselect_server_type` (`helpers.py` lines 109-150).  An `Except.error`
result would mean an uncaught `HetznerAPIError`; the source wraps the fetch
in `try/except HetznerAPIError` and returns `False` from the handler
instead, and every other bail-out path also returns `False`. -/
def reselect_server_type (env : FlowEnv) (currentType location : String) :
    Except String Bool :=
  match env.readTfvars with
  | none => .ok false
  | some cfg =>
    if cfg.provider != "hetzner" then .ok false
    else if cfg.hetzner_token == "" then .ok false
    else
      match env.getServerTypes location with
      | .error _ => .ok false
      | .ok server_types =>
        if server_types.isEmpty then .ok false
        else
          let type_choices := server_types.map fun st => (st.name, st.label)
          match select type_choices env.selectPick with
          | none => .ok false
          | some new_type => if new_type == "" then .ok false else .ok true

/-- `handle_recovery_action` (`helpers.py` lines 183-199): only `reselect`
is handled; it re-classifies the error and runs the reselection flow,
returning whether a retry with a new selection should happen. -/
def handle_recovery_action (action : String) (error : String) (env : FlowEnv) :
    Except String Bool :=
  if action = "reselect" then
    match detect_server_type_error error with
    | some info =>
      match reselect_server_type env info.1 info.2 with
      | .ok true => .ok true
      | .ok false => .ok false
      | .error e => .error e
    | none => .ok false
  else .ok false

/-- The TLS/domain feature gate guarding the DNS pause:
`if cfg and cfg.enable_letsencrypt and cfg.domain_name and ip:`
(`core.py` line 50). -/
def dnsGate (cfg : Option Cfg) (ip : Option String) : Bool :=
  match cfg with
  | none => false
  | some c => c.enable_letsencrypt && c.domain_name != "" && ipTruthy ip

/-- The DNS-configuration block printed inside the gate (`core.py` lines
51-57), including the required A record. -/
def dnsGateLines (domain ip : String) : List String :=
  ["  Server IP: [cyan]" ++ ip ++ "[/cyan]",
   "  Domain:    [cyan]" ++ domain ++ "[/cyan]",
   "",
   "  Configure your DNS:",
   "    " ++ domain ++ "  →  A record  →  " ++ ip,
   ""]

/-- The scripted external world for one iteration of the `do_deploy` stage
loop: the stage collaborators, the post-`apply` re-reads of the ip and the
config, the operator's answer to the DNS confirmation, the operator's
recovery-menu pick, and the reselection-flow collaborators. -/
structure IterInput where
  stageEnv : StageEnv
  gateIp : Option String
  gateCfg : Option Cfg
  dnsConfirm : Bool
  menuPick : Option Nat
  flowEnv : FlowEnv

/-- Outcome of one iteration of the `do_deploy` while-loop: continue at a
stage index carrying `last_error`, or return exit code 1. -/
inductive LoopOutcome where
  | next (stageIdx : Nat) (lastError : String) : LoopOutcome
  | paused : LoopOutcome
deriving Repr, DecidableEq

/-- One iteration of the `while stage_idx < len(stages)` loop of
`do_deploy` (`core.py` lines 39-87). -/
def deployStep (stages : List String) (stageIdx : Nat) (inp : IterInput) : LoopOutcome :=
  let stage := stages.getD stageIdx ""
  let result := run_stage stage inp.stageEnv
  if result.success then
    if stage = "apply" ∧ dnsGate inp.gateCfg inp.gateIp ∧ !inp.dnsConfirm then .paused
    else .next (stageIdx + 1) ""
  else
    let action := recovery_menu stage result.error inp.menuPick
    if action = "retry" then .next stageIdx result.error
    else if action = "reselect" then
      let _handled := handle_recovery_action action result.error inp.flowEnv
      .next stageIdx result.error
    else if action = "edit" then .next stageIdx result.error
    else if action = "skip" then .next (stageIdx + 1) result.error
    else .paused

/-- Result of running the stage loop against a finite script of iteration
inputs. -/
inductive LoopResult where
  | pausedExit : LoopResult
  | completedLoop : LoopResult
  | outOfScript : LoopResult
deriving Repr, DecidableEq

/-- The whole `while` loop of `do_deploy`, driven by a script supplying one
`IterInput` per iteration; `outOfScript` is the modelling artifact of a
finite script, never an exit of the source loop. -/
def runLoop (stages : List String) : List IterInput → Nat → LoopResult
  | [], stageIdx => if stageIdx < stages.length then .outOfScript else .completedLoop
  | inp :: rest, stageIdx =>
    if stageIdx < stages.length then
      match deployStep stages stageIdx inp with
      | .next j _ => runLoop stages rest j
      | .paused => .pausedExit
    else .completedLoop

/-- The scripted external world for a whole `do_deploy` invocation. -/
structure DeployEnv where
  ip : Option String
  reachable : String → Bool
  hasStateFile : Bool
  script : List IterInput
  validate : Bool

/-- Exit of a `do_deploy` invocation. -/
inductive DeployExit where
  | code (n : Nat) : DeployExit
  | outOfScript : DeployExit
deriving Repr, DecidableEq

/-- `do_deploy` (`core.py` lines 20-125): resolve the stage list, run the
stage loop (any in-loop `return 1` is `pausedExit`), then on normal loop
exit print the connection summary and run the final validation pass
(`ansible.run_validate`, scripted as `env.validate`); validation failure
downgrades the exit code to 1. -/
def do_deploy (env : DeployEnv) : DeployExit :=
  let stages := resolveStages env.ip env.reachable env.hasStateFile
  match runLoop stages env.script 0 with
  | .pausedExit => .code 1
  | .outOfScript => .outOfScript
  | .completedLoop => if env.validate then .code 0 else .code 1

/-- A reachability probe answering true for every address. -/
def alwaysReach : String → Bool := fun _ => true

/-- A reachability probe answering false for every address. -/
def neverReach : String → Bool := fun _ => false

/-- The stage named by the loop iteration at index `idx`
(`stage = stages[stage_idx]`). -/
def stepStage (stages : List String) (idx : Nat) : String := stages.getD idx ""

/-- The stage outcome of the loop iteration at index `idx`
(`result = run_stage(stage, name)`). -/
def stepResult (stages : List String) (idx : Nat) (inp : IterInput) : StageResult :=
  run_stage (stages.getD idx "") inp.stageEnv

/-- The recovery action chosen in the failure branch of the loop iteration
at index `idx` (`action = recovery_menu(stage, name, error=last_error)`). -/
def stepAction (stages : List String) (idx : Nat) (inp : IterInput) : String :=
  recovery_menu (stages.getD idx "") (run_stage (stages.getD idx "") inp.stageEnv).error
    inp.menuPick

/-- A reselection-flow environment with no readable config, a failing
fetch, and a cancelled selection. -/
def noFlow : FlowEnv :=
  { readTfvars := none
    getServerTypes := fun _ => Except.error "API request failed"
    selectPick := none }

/-- Stage collaborators for a deployment whose SSH probe fails. -/
def sshFailEnv : StageEnv :=
  { terraformInit := true
    terraformApply := { success := true, error := "" }
    getIp := some "198.51.100.7"
    waitForSsh := fun _ => false
    runPlaybook := true }

/-- Iteration input: failing `ssh` stage, operator picks `skip`
(index 1 of the `ssh` recovery menu `[retry, skip, abort]`). -/
def skipSshInput : IterInput :=
  { stageEnv := sshFailEnv
    gateIp := none
    gateCfg := none
    dnsConfirm := true
    menuPick := some 1
    flowEnv := noFlow }

/-- A configuration with the TLS/domain feature set. -/
def tlsCfg : Cfg :=
  { provider := "hetzner"
    hetzner_token := "token"
    hetzner_server_type := "cpx31"
    enable_letsencrypt := true
    domain_name := "example.com" }

/-- Stage collaborators for a deployment where every stage succeeds. -/
def allOkEnv : StageEnv :=
  { terraformInit := true
    terraformApply := { success := true, error := "" }
    getIp := some "203.0.113.9"
    waitForSsh := fun _ => true
    runPlaybook := true }

/-- Iteration input: successful `apply`, TLS gate set, operator declines
the DNS confirmation. -/
def dnsPauseInput : IterInput :=
  { stageEnv := allOkEnv
    gateIp := some "203.0.113.9"
    gateCfg := some tlsCfg
    dnsConfirm := false
    menuPick := none
    flowEnv := noFlow }

/-- Iteration input: every stage succeeds, no TLS gate. -/
def allOkInput : IterInput :=
  { stageEnv := allOkEnv
    gateIp := none
    gateCfg := none
    dnsConfirm := true
    menuPick := none
    flowEnv := noFlow }

/-- A whole-deployment script: reachable server, one successful `ansible`
iteration, successful validation. -/
def resumeOkEnv : DeployEnv :=
  { ip := some "203.0.113.9"
    reachable := alwaysReach
    hasStateFile := false
    script := [allOkInput]
    validate := true }

/-- Stage collaborators for a deployment with no known IP. -/
def noIpEnv : StageEnv :=
  { terraformInit := true
    terraformApply := { success := false, error := "boom" }
    getIp := none
    waitForSsh := fun _ => false
    runPlaybook := true }

theorem detect_empty : detect_server_type_error "" = none := by decide

/-- C1: the stage list resolved at the start of `do_deploy` is a function of
the triple (ip present?, ip reachable?, persisted infra state exists?) —
namely the four-way table `specStageTable`, which returns `["ansible"]`,
`["ssh", "ansible"]`, `["apply", "ssh", "ansible"]` or the full canonical
list — and it is always a suffix of the canonical order with no
duplicates. -/
theorem resolved_stage_list_table (ip : Option String) (reach : String → Bool)
    (hasState : Bool) :
    resolveStages ip reach hasState =
      specStageTable (ipTruthy ip) (reach (ip.getD "")) hasState ∧
    (resolveStages ip reach hasState).isSuffixOf canonicalStages = true ∧
    (resolveStages ip reach hasState).Nodup := by
  refine ⟨rfl, ?_, ?_⟩ <;>
    cases hp : ipTruthy ip <;> cases hr : reach (ip.getD "") <;> cases hs : hasState <;>
      simp only [resolveStages, hp, hr, hs] <;> decide

/-- Witness for C1: a present, reachable IP resolves to `["ansible"]`. -/
theorem resolved_stage_list_table_witness :
    resolveStages (some "203.0.113.9") alwaysReach false = ["ansible"] :=
  (resolved_stage_list_table (some "203.0.113.9") alwaysReach false).1.trans (by decide)

theorem recoveryChoices_eq (stage error : String) :
    recoveryChoices stage error =
      (if stage = "apply" ∧ (detect_server_type_error error).isSome then
        [("reselect", "Select different server type")] else []) ++
      [("retry", "Retry")] ++
      (if stage = "apply" ∨ stage = "ansible" then [("edit", "Edit configuration")]
       else []) ++
      (if stage = "apply" ∨ stage = "ssh" then [("skip", "Skip to next step")]
       else []) ++
      [("abort", "Abort (keep current state)")] := by
  unfold recoveryChoices
  by_cases ha : stage = "apply"
  · subst ha
    by_cases he : error = ""
    · subst he
      simp [detect_empty]
    · cases hd : detect_server_type_error error with
      | none => simp [he, hd]
      | some v => simp [he, hd]
  · by_cases hb : stage = "ansible"
    · subst hb
      simp
    · by_cases hc : stage = "ssh"
      · subst hc
        simp
      · simp [ha, hb, hc]

theorem recoveryChoices_fst_mem (stage error : String) :
    ∀ pr ∈ recoveryChoices stage error,
      pr.1 ∈ (["retry", "reselect", "edit", "skip", "abort"] : List String) := by
  rw [recoveryChoices_eq]
  by_cases h1 : stage = "apply" ∧ (detect_server_type_error error).isSome <;>
  by_cases h2 : stage = "apply" ∨ stage = "ansible" <;>
  by_cases h3 : stage = "apply" ∨ stage = "ssh" <;>
    simp only [h1, h2, h3, if_true, if_false, ite_true, ite_false] <;> decide

/-- C3: the recovery menu obeys the rule table: `reselect` appears exactly
when the stage is `apply` and the classifier matched the error text; `edit`
exactly for `apply`/`ansible`; `skip` exactly for `apply`/`ssh`; `retry`
always appears; and the last entry is always `abort`. -/
theorem recovery_menu_rule_table (stage error : String) :
    ("reselect" ∈ (recoveryChoices stage error).map Prod.fst ↔
      stage = "apply" ∧ (detect_server_type_error error).isSome) ∧
    ("edit" ∈ (recoveryChoices stage error).map Prod.fst ↔
      stage = "apply" ∨ stage = "ansible") ∧
    ("skip" ∈ (recoveryChoices stage error).map Prod.fst ↔
      stage = "apply" ∨ stage = "ssh") ∧
    "retry" ∈ (recoveryChoices stage error).map Prod.fst ∧
    (recoveryChoices stage error).getLast? =
      some ("abort", "Abort (keep current state)") := by
  rw [recoveryChoices_eq]
  by_cases h1 : stage = "apply" ∧ (detect_server_type_error error).isSome <;>
  by_cases h2 : stage = "apply" ∨ stage = "ansible" <;>
  by_cases h3 : stage = "apply" ∨ stage = "ssh" <;>
    simp [h1, h2, h3, List.getLast?]

/-- Witness for C3: on an `apply` failure whose text the classifier
matched, `reselect` is offered. -/
theorem recovery_menu_rule_table_witness :
    "reselect" ∈ (recoveryChoices "apply"
      "Server Type \"cpx31\" is unavailable in \"hel1\"").map Prod.fst :=
  (recovery_menu_rule_table "apply"
    "Server Type \"cpx31\" is unavailable in \"hel1\"").1.mpr ⟨rfl, by decide⟩

/-- C9: `recovery_menu` always returns a valid action: a cancelled
selection yields `"abort"`, and every possible return value is one of the
five action strings. -/
theorem recovery_menu_valid_action (stage error : String) (pick : Option Nat) :
    (pick = none → recovery_menu stage error pick = "abort") ∧
    recovery_menu stage error pick ∈
      (["retry", "reselect", "edit", "skip", "abort"] : List String) := by
  constructor
  · intro h
    subst h
    rfl
  · cases pick with
    | none => simp [recovery_menu, select]
    | some i =>
      unfold recovery_menu select
      cases hg : (recoveryChoices stage error).get? i with
      | none =>
        rw [List.get?_eq_getElem?] at hg
        simp [hg]
      | some pr =>
        have hmem : pr ∈ recoveryChoices stage error := List.get?_mem hg
        have hv := recoveryChoices_fst_mem stage error pr hmem
        rw [List.get?_eq_getElem?] at hg
        simpa [hg] using hv

/-- Witness for C9: cancelling the recovery prompt on a failing `ssh`
stage yields `"abort"`. -/
theorem recovery_menu_valid_action_witness :
    recovery_menu "ssh" "probe timed out" none = "abort" :=
  (recovery_menu_valid_action "ssh" "probe timed out" none).1 rfl

/-- C8: running the `ssh` (ConnectWait) stage when the deployment has no
(truthy) known IP is a no-op success: the probe is never consulted and the
result is `StageResult(success=True)`. -/
theorem ssh_stage_no_ip (env : StageEnv) (h : ipTruthy env.getIp = false) :
    run_stage "ssh" env = { success := true, error := "" } := by
  unfold run_stage
  rw [if_neg (by decide : ¬("ssh" = "init")), if_neg (by decide : ¬("ssh" = "apply")),
    if_pos rfl]
  cases hip : env.getIp with
  | none => rfl
  | some s =>
    rw [hip] at h
    have hs : s = "" := by simpa [ipTruthy] using h
    simp [hs]

/-- Witness for C8: concrete stage collaborators with `getIp = none`. -/
theorem ssh_stage_no_ip_witness :
    run_stage "ssh" noIpEnv = { success := true, error := "" } :=
  ssh_stage_no_ip noIpEnv rfl

theorem deployStep_fail_eq (stages : List String) (idx : Nat) (inp : IterInput)
    (hfail : (run_stage (stages.getD idx "") inp.stageEnv).success = false) :
    deployStep stages idx inp =
      (if stepAction stages idx inp = "retry" then
        LoopOutcome.next idx (stepResult stages idx inp).error
      else if stepAction stages idx inp = "reselect" then
        LoopOutcome.next idx (stepResult stages idx inp).error
      else if stepAction stages idx inp = "edit" then
        LoopOutcome.next idx (stepResult stages idx inp).error
      else if stepAction stages idx inp = "skip" then
        LoopOutcome.next (idx + 1) (stepResult stages idx inp).error
      else LoopOutcome.paused) := by
  have hf : (run_stage (stages[idx]?.getD "") inp.stageEnv).success = false := by
    simpa using hfail
  simp [deployStep, stepAction, stepResult, hf]

/-- C2: on a failing stage, `retry`, `reselect` and `edit` re-run the same
stage (index unchanged; for `reselect` the outcome of the reselection flow
is discarded, the input being universally quantified over it), `skip`
advances the index by one without the stage having succeeded, and `abort`
leaves the loop with exit code 1. -/
theorem failure_actions (stages : List String) (idx : Nat) (inp : IterInput)
    (hfail : (stepResult stages idx inp).success = false) :
    ((stepAction stages idx inp = "retry" ∨ stepAction stages idx inp = "reselect" ∨
        stepAction stages idx inp = "edit") →
      deployStep stages idx inp =
        LoopOutcome.next idx (stepResult stages idx inp).error) ∧
    (stepAction stages idx inp = "skip" →
      deployStep stages idx inp =
        LoopOutcome.next (idx + 1) (stepResult stages idx inp).error) ∧
    (stepAction stages idx inp = "abort" →
      deployStep stages idx inp = LoopOutcome.paused ∧
      ∀ rest, idx < stages.length →
        runLoop stages (inp :: rest) idx = LoopResult.pausedExit) := by
  rw [deployStep_fail_eq stages idx inp hfail]
  refine ⟨?_, ?_, ?_⟩
  · rintro (h | h | h) <;> simp [h]
  · intro h
    simp [h]
  · intro h
    have hp : deployStep stages idx inp = LoopOutcome.paused := by
      rw [deployStep_fail_eq stages idx inp hfail]
      simp [h]
    refine ⟨by simp [h], fun rest hlen => ?_⟩
    simp [runLoop, hlen, hp]

/-- Witness for C2 (Scenario E): the operator skips a failing `ssh` stage
and the loop advances to the `ansible` stage index. -/
theorem failure_actions_witness :
    deployStep ["ssh", "ansible"] 0 skipSshInput = LoopOutcome.next 1 "" := by
  have h := (failure_actions ["ssh", "ansible"] 0 skipSshInput (by decide)).2.1 (by decide)
  exact h.trans (by decide)

/-- C5: after a successful `apply` with the TLS/domain gate set, the loop
advances exactly when the operator confirms DNS propagation; on refusal the
iteration pauses and the whole invocation ends as `pausedExit` (exit code
1) with no further stage consumed from the script; the displayed block
contains the required A record. -/
theorem dns_gate_blocks (stages : List String) (idx : Nat) (inp : IterInput)
    (hstage : stages.getD idx "" = "apply")
    (hok : (run_stage "apply" inp.stageEnv).success = true)
    (hgate : dnsGate inp.gateCfg inp.gateIp = true) :
    (inp.dnsConfirm = true →
      deployStep stages idx inp = LoopOutcome.next (idx + 1) "") ∧
    (inp.dnsConfirm = false →
      deployStep stages idx inp = LoopOutcome.paused ∧
      ∀ rest, idx < stages.length →
        runLoop stages (inp :: rest) idx = LoopResult.pausedExit) ∧
    ∀ d i, ("    " ++ d ++ "  →  A record  →  " ++ i) ∈ dnsGateLines d i := by
  have hst : stages[idx]?.getD "" = "apply" := by simpa using hstage
  refine ⟨?_, ?_, ?_⟩
  · intro hc
    simp [deployStep, hst, hok, hgate, hc]
  · intro hc
    have hp : deployStep stages idx inp = LoopOutcome.paused := by
      simp [deployStep, hst, hok, hgate, hc]
    refine ⟨hp, fun rest hlen => ?_⟩
    simp [runLoop, hlen, hp]
  · intro d i
    simp [dnsGateLines]

/-- Witness for C5: concrete refused DNS confirmation pauses the loop. -/
theorem dns_gate_blocks_witness :
    runLoop ["apply", "ssh", "ansible"] [dnsPauseInput] 0 = LoopResult.pausedExit :=
  ((dns_gate_blocks ["apply", "ssh", "ansible"] 0 dnsPauseInput rfl (by decide)
    (by decide)).2.1 rfl).2 [] (by decide)

theorem deployStep_advance (stages : List String) (idx : Nat) (inp : IterInput)
    (e : String) (h : deployStep stages idx inp = LoopOutcome.next (idx + 1) e) :
    (stepResult stages idx inp).success = true ∨ stepAction stages idx inp = "skip" := by
  by_cases hs : (stepResult stages idx inp).success = true
  · exact Or.inl hs
  · right
    rw [Bool.not_eq_true] at hs
    rw [deployStep_fail_eq stages idx inp hs] at h
    by_cases h1 : stepAction stages idx inp = "retry"
    · rw [if_pos h1] at h
      simp at h
    · rw [if_neg h1] at h
      by_cases h2 : stepAction stages idx inp = "reselect"
      · rw [if_pos h2] at h
        simp at h
      · rw [if_neg h2] at h
        by_cases h3 : stepAction stages idx inp = "edit"
        · rw [if_pos h3] at h
          simp at h
        · rw [if_neg h3] at h
          by_cases h4 : stepAction stages idx inp = "skip"
          · exact h4
          · rw [if_neg h4] at h
            simp at h

/-- C6: `do_deploy` exits 0 exactly when the stage loop ran to completion
and the final validation passed; an in-loop pause (operator abort or DNS
refusal) exits 1; a completed loop with failed validation exits 1 without
re-entering the loop; and every index advancement of the loop comes from a
stage success or an explicit `skip`. -/
theorem exit_code_contract (env : DeployEnv) :
    (do_deploy env = DeployExit.code 0 ↔
      (runLoop (resolveStages env.ip env.reachable env.hasStateFile) env.script 0 =
        LoopResult.completedLoop ∧ env.validate = true)) ∧
    (runLoop (resolveStages env.ip env.reachable env.hasStateFile) env.script 0 =
        LoopResult.pausedExit → do_deploy env = DeployExit.code 1) ∧
    (runLoop (resolveStages env.ip env.reachable env.hasStateFile) env.script 0 =
        LoopResult.completedLoop → env.validate = false →
      do_deploy env = DeployExit.code 1) ∧
    ∀ stages idx inp e, deployStep stages idx inp = LoopOutcome.next (idx + 1) e →
      (stepResult stages idx inp).success = true ∨ stepAction stages idx inp = "skip" := by
  refine ⟨?_, ?_, ?_, fun stages idx inp e h => deployStep_advance stages idx inp e h⟩
  · cases hr : runLoop (resolveStages env.ip env.reachable env.hasStateFile) env.script 0 <;>
      cases hv : env.validate <;> simp [do_deploy, hr, hv]
  · intro hr
    simp [do_deploy, hr]
  · intro hr hv
    simp [do_deploy, hr, hv]

/-- Witness for C6: a reachable server with one successful `ansible`
iteration and passing validation exits 0. -/
theorem exit_code_contract_witness : do_deploy resumeOkEnv = DeployExit.code 0 :=
  (exit_code_contract resumeOkEnv).1.mpr ⟨by decide, rfl⟩

theorem reselect_server_type_ok (env : FlowEnv) (ct loc : String) :
    ∃ b, reselect_server_type env ct loc = Except.ok b := by
  unfold reselect_server_type
  cases hr : env.readTfvars with
  | none => exact ⟨false, rfl⟩
  | some cfg =>
    by_cases hp : (cfg.provider != "hetzner") = true
    · exact ⟨false, by simp [hp]⟩
    · by_cases ht : (cfg.hetzner_token == "") = true
      · exact ⟨false, by simp [hp, ht]⟩
      · cases hg : env.getServerTypes loc with
        | error e => exact ⟨false, by simp [hp, ht, hg]⟩
        | ok sts =>
          by_cases he : sts.isEmpty = true
          · exact ⟨false, by simp [hp, ht, hg, he]⟩
          · cases hsel : select (sts.map fun st => (st.name, st.label)) env.selectPick with
            | none => exact ⟨false, by simp [hp, ht, hg, he, hsel]⟩
            | some nt =>
              by_cases hn : (nt == "") = true
              · exact ⟨false, by simp [hp, ht, hg, he, hsel, hn]⟩
              · exact ⟨true, by simp [hp, ht, hg, he, hsel, hn]⟩

/-- C7: the reselection flow never raises: a provider other than Hetzner, a
fetch that raises `HetznerAPIError`, or a cancelled selection each make
`reselect_server_type` return `ok false` (not handled, no exception);
`handle_recovery_action` always returns `ok`; and on a failing stage whose
menu answer is `reselect` the orchestrator re-runs the same stage, where the
ordinary recovery menu is presented again. -/
theorem reselection_flow_no_throw (env : FlowEnv) (ct loc : String) :
    (∀ cfg, env.readTfvars = some cfg → cfg.provider ≠ "hetzner" →
      reselect_server_type env ct loc = Except.ok false) ∧
    (∀ e, env.getServerTypes loc = Except.error e →
      reselect_server_type env ct loc = Except.ok false) ∧
    (env.selectPick = none → reselect_server_type env ct loc = Except.ok false) ∧
    (∀ action error, ∃ b, handle_recovery_action action error env = Except.ok b) ∧
    (∀ stages idx inp, (stepResult stages idx inp).success = false →
      stepAction stages idx inp = "reselect" →
      deployStep stages idx inp =
        LoopOutcome.next idx (stepResult stages idx inp).error) := by
  refine ⟨?_, ?_, ?_, ?_, ?_⟩
  · intro cfg hr hp
    unfold reselect_server_type
    rw [hr]
    simp [hp]
  · intro e hg
    unfold reselect_server_type
    cases hr : env.readTfvars with
    | none => rfl
    | some cfg =>
      by_cases hp : (cfg.provider != "hetzner") = true
      · simp [hp]
      · by_cases ht : (cfg.hetzner_token == "") = true
        · simp [hp, ht]
        · simp [hp, ht, hg]
  · intro hn
    unfold reselect_server_type
    cases hr : env.readTfvars with
    | none => rfl
    | some cfg =>
      by_cases hp : (cfg.provider != "hetzner") = true
      · simp [hp]
      · by_cases ht : (cfg.hetzner_token == "") = true
        · simp [hp, ht]
        · cases hg : env.getServerTypes loc with
          | error e => simp [hp, ht, hg]
          | ok sts =>
            by_cases he : sts.isEmpty = true
            · simp [hp, ht, hg, he]
            · simp [hp, ht, hg, he, select, hn]
  · intro action error
    by_cases ha : action = "reselect"
    · subst ha
      unfold handle_recovery_action
      cases hd : detect_server_type_error error with
      | none => exact ⟨false, by simp [hd]⟩
      | some info =>
        obtain ⟨b, hb⟩ := reselect_server_type_ok env info.1 info.2
        cases b with
        | false => exact ⟨false, by simp [hd, hb]⟩
        | true => exact ⟨true, by simp [hd, hb]⟩
    · exact ⟨false, by simp [handle_recovery_action, ha]⟩
  · intro stages idx inp hf ha
    rw [deployStep_fail_eq stages idx inp hf]
    simp [ha]

/-- Witness for C7: the flow with no readable config, a failing fetch and a
cancelled selection reports not-handled instead of raising. -/
theorem reselection_flow_no_throw_witness :
    reselect_server_type noFlow "cpx31" "hel1" = Except.ok false :=
  (reselection_flow_no_throw noFlow "cpx31" "hel1").2.2.1 rfl

/-- C4 counterexample: on the exact Scenario D text
`Resource Type "cpx31" is unavailable in "hel1"` the classifier does NOT
match (the source pattern requires `Server Type`), and the `apply` recovery
menu starts with `retry`, not `reselect`. -/
theorem scenarioD_counterexample :
    detect_server_type_error "Resource Type \"cpx31\" is unavailable in \"hel1\"" =
      none ∧
    (recoveryChoices "apply"
      "Resource Type \"cpx31\" is unavailable in \"hel1\"").map Prod.fst =
      ["retry", "edit", "skip", "abort"] := by
  constructor
  · decide
  · decide

/-- C4 (amended): with the diagnostic worded as the source emits it,
`Server Type "cpx31" is unavailable in "hel1"`, the classifier returns the
pair `("cpx31", "hel1")` and `reselect` is the first option of the `apply`
recovery menu. -/
theorem scenarioD_amended :
    detect_server_type_error "Server Type \"cpx31\" is unavailable in \"hel1\"" =
      some ("cpx31", "hel1") ∧
    (recoveryChoices "apply"
      "Server Type \"cpx31\" is unavailable in \"hel1\"").head? =
      some ("reselect", "Select different server type") := by
  constructor
  · decide
  · decide

theorem notQuote_true_iff (a : Char) : notQuote a = true ↔ a ≠ quoteChar := by
  simp [notQuote]

theorem notQuote_false_iff (a : Char) : notQuote a = false ↔ a = quoteChar := by
  simp [notQuote]

theorem lit2_cons : lit2 = quoteChar :: (" is unavailable in \"".data) := by decide

theorem stripPfx_eq_some (p : List Char) :
    ∀ s r, stripPfx p s = some r ↔ s = p ++ r := by
  induction p with
  | nil =>
    intro s r
    simp [stripPfx]
  | cons a ps ih =>
    intro s r
    cases s with
    | nil => simp [stripPfx]
    | cons c cs =>
      by_cases h : a = c
      · subst h
        simp [stripPfx, ih]
      · simp only [stripPfx, if_neg h]
        constructor
        · intro hx
          exact Option.noConfusion hx
        · intro hx
          injection hx with h1 h2
          exact absurd h1.symm h

theorem dropWhile_head_false (p : Char → Bool) (l : List Char) :
    ∀ a tl, l.dropWhile p = a :: tl → p a = false := by
  induction l with
  | nil =>
    intro a tl h
    exact absurd h (by simp)
  | cons c cs ih =>
    intro a tl h
    by_cases hc : p c = true
    · rw [List.dropWhile_cons, if_pos hc] at h
      exact ih a tl h
    · rw [List.dropWhile_cons, if_neg hc] at h
      rw [Bool.not_eq_true] at hc
      injection h with h1 h2
      subst h1
      exact hc

theorem takeWhile_append_not (p : Char → Bool) (T rest : List Char)
    (hT : ∀ c ∈ T, p c = true)
    (hrest : ∀ a tl, rest = a :: tl → p a = false) :
    (T ++ rest).takeWhile p = T ∧ (T ++ rest).dropWhile p = rest := by
  induction T with
  | nil =>
    simp only [List.nil_append]
    cases rest with
    | nil => simp
    | cons a tl =>
      have ha := hrest a tl rfl
      simp [List.takeWhile_cons, List.dropWhile_cons, ha]
  | cons t ts ih =>
    have ht : p t = true := hT t (by simp)
    have hts : ∀ c ∈ ts, p c = true := fun c hc => hT c (by simp [hc])
    obtain ⟨h1, h2⟩ := ih hts
    simp [List.takeWhile_cons, List.dropWhile_cons, ht, h1, h2]

theorem grabGroup_eq_some (r g rest : List Char) :
    grabGroup r = some (g, rest) ↔
      (g ≠ [] ∧ (∀ c ∈ g, notQuote c = true) ∧ r = g ++ rest ∧
        ∀ a tl, rest = a :: tl → a = quoteChar) := by
  constructor
  · intro h
    unfold grabGroup at h
    by_cases he : (r.takeWhile notQuote).isEmpty = true
    · rw [if_pos he] at h
      exact Option.noConfusion h
    · rw [if_neg he] at h
      injection h with h1
      have hg : r.takeWhile notQuote = g := congrArg Prod.fst h1
      have hd : r.dropWhile notQuote = rest := congrArg Prod.snd h1
      refine ⟨?_, ?_, ?_, ?_⟩
      · intro hgnil
        apply he
        rw [hg, hgnil]
        rfl
      · intro c hc
        exact List.mem_takeWhile_imp (hg ▸ hc)
      · conv_lhs => rw [← List.takeWhile_append_dropWhile (p := notQuote) (l := r)]
        rw [hg, hd]
      · intro a tl htl
        have hf := dropWhile_head_false notQuote r a tl (by rw [hd, htl])
        exact (notQuote_false_iff a).mp hf
  · rintro ⟨hg, hmem, hr, hrest⟩
    have hrest2 : ∀ a tl, rest = a :: tl → notQuote a = false := by
      intro a tl htl
      exact (notQuote_false_iff a).mpr (hrest a tl htl)
    obtain ⟨h1, h2⟩ := takeWhile_append_not notQuote g rest hmem hrest2
    subst hr
    unfold grabGroup
    have hne : ¬((g ++ rest).takeWhile notQuote).isEmpty = true := by
      rw [h1]
      cases g with
      | nil => exact absurd rfl hg
      | cons x xs => simp
    rw [if_neg hne, h1, h2]

theorem matchAt_eq_some_iff (s t l : List Char) :
    matchAt s = some (t, l) ↔
      (t ≠ [] ∧ l ≠ [] ∧ (∀ c ∈ t, c ≠ quoteChar) ∧ (∀ c ∈ l, c ≠ quoteChar) ∧
        ∃ post, s = patEncode t l ++ post) := by
  constructor
  · intro h
    unfold matchAt at h
    simp only [Option.bind_eq_some] at h
    obtain ⟨r1, h1, ⟨t1, r2⟩, hg1, r3, h3, ⟨l1, r4⟩, hg2, h5⟩ := h
    dsimp only at h3 h5
    rw [stripPfx_eq_some] at h1 h3
    obtain ⟨ht1ne, ht1mem, hr1eq, -⟩ := (grabGroup_eq_some r1 t1 r2).mp hg1
    obtain ⟨hl1ne, hl1mem, hr3eq, hr4head⟩ := (grabGroup_eq_some r3 l1 r4).mp hg2
    by_cases he : r4.isEmpty = true
    · rw [if_pos he] at h5
      exact Option.noConfusion h5
    · rw [if_neg he] at h5
      injection h5 with hh
      injection hh with ht hl
      subst ht
      subst hl
      cases hr4c : r4 with
      | nil =>
        rw [hr4c] at he
        simp at he
      | cons a tl =>
        have ha : a = quoteChar := hr4head a tl hr4c
        subst ha
        refine ⟨ht1ne, hl1ne, fun c hc => (notQuote_true_iff c).mp (ht1mem c hc),
          fun c hc => (notQuote_true_iff c).mp (hl1mem c hc), tl, ?_⟩
        rw [h1, hr1eq, h3, hr3eq, hr4c]
        simp [patEncode, List.append_assoc]
  · rintro ⟨htne, hlne, htmem, hlmem, post, hs⟩
    unfold matchAt
    simp only [Option.bind_eq_some]
    refine ⟨t ++ (lit2 ++ (l ++ quoteChar :: post)), ?_,
      (t, lit2 ++ (l ++ quoteChar :: post)), ?_,
      l ++ quoteChar :: post, ?_,
      (l, quoteChar :: post), ?_, ?_⟩
    · rw [stripPfx_eq_some, hs]
      simp [patEncode, List.append_assoc]
    · rw [grabGroup_eq_some]
      refine ⟨htne, fun c hc => (notQuote_true_iff c).mpr (htmem c hc), rfl, ?_⟩
      intro a tl htl
      rw [lit2_cons] at htl
      simp only [List.cons_append] at htl
      injection htl with ha hb
      exact ha.symm
    · rw [stripPfx_eq_some]
    · rw [grabGroup_eq_some]
      refine ⟨hlne, fun c hc => (notQuote_true_iff c).mpr (hlmem c hc), rfl, ?_⟩
      intro a tl htl
      injection htl with ha hb
      exact ha.symm
    · simp

theorem matchAt_eq_none_iff (s : List Char) :
    matchAt s = none ↔
      ∀ T L, ¬(T ≠ [] ∧ L ≠ [] ∧ (∀ c ∈ T, c ≠ quoteChar) ∧
        (∀ c ∈ L, c ≠ quoteChar) ∧ ∃ post, s = patEncode T L ++ post) := by
  constructor
  · intro h T L hTL
    have hsome := (matchAt_eq_some_iff s T L).mpr hTL
    rw [h] at hsome
    exact Option.noConfusion hsome
  · intro h
    cases hm : matchAt s with
    | none => rfl
    | some p =>
      obtain ⟨a, b⟩ := p
      exact absurd ((matchAt_eq_some_iff s a b).mp hm) (h a b)

theorem detectChars_eq_some (s : List Char) :
    ∀ t l, detectChars s = some (t, l) →
      ∃ i, matchAt (s.drop i) = some (t, l) ∧
        ∀ j, j < i → matchAt (s.drop j) = none := by
  induction s with
  | nil =>
    intro t l h
    refine ⟨0, ?_, fun j hj => absurd hj (Nat.not_lt_zero j)⟩
    simpa [detectChars] using h
  | cons c cs ih =>
    intro t l h
    cases hm : matchAt (c :: cs) with
    | some r =>
      simp only [detectChars, hm] at h
      refine ⟨0, ?_, fun j hj => absurd hj (Nat.not_lt_zero j)⟩
      simp only [List.drop_zero]
      rw [hm, h]
    | none =>
      simp only [detectChars, hm] at h
      obtain ⟨i, hi, hlt⟩ := ih t l h
      refine ⟨i + 1, ?_, ?_⟩
      · simpa using hi
      · intro j hj
        cases j with
        | zero => simpa using hm
        | succ j2 => simpa using hlt j2 (Nat.lt_of_succ_lt_succ hj)

theorem detectChars_eq_none (s : List Char) :
    detectChars s = none → ∀ i, matchAt (s.drop i) = none := by
  induction s with
  | nil =>
    intro h i
    rw [List.drop_nil]
    simpa [detectChars] using h
  | cons c cs ih =>
    intro h i
    cases hm : matchAt (c :: cs) with
    | some r =>
      simp only [detectChars, hm] at h
      exact Option.noConfusion h
    | none =>
      simp only [detectChars, hm] at h
      cases i with
      | zero => simpa using hm
      | succ j => simpa using ih h j

/-- C10: `detect_server_type_error` matches exactly the texts containing a
substring `Server Type "T" is unavailable in "L"` with non-empty quote-free
groups: when it returns a pair, that pair occurs at some offset before
which no such substring starts (the first occurrence), and when it returns
`none` no offset carries such a substring. -/
theorem classifier_characterisation (s : String) :
    (detect_server_type_error s = none → ∀ i T L, ¬PatAt s.data i T L) ∧
    ∀ t l, detect_server_type_error s = some (t, l) →
      ∃ i, PatAt s.data i t.data l.data ∧
        ∀ j, j < i → ∀ T L, ¬PatAt s.data j T L := by
  constructor
  · intro h i T L hp
    have hd : detectChars s.data = none := by
      unfold detect_server_type_error at h
      cases hc : detectChars s.data with
      | none => rfl
      | some p =>
        rw [hc] at h
        exact Option.noConfusion h
    have hm := detectChars_eq_none s.data hd i
    have hsome := (matchAt_eq_some_iff (s.data.drop i) T L).mpr hp
    rw [hm] at hsome
    exact Option.noConfusion hsome
  · intro t l h
    unfold detect_server_type_error at h
    cases hc : detectChars s.data with
    | none =>
      rw [hc] at h
      exact Option.noConfusion h
    | some p =>
      obtain ⟨p1, p2⟩ := p
      rw [hc] at h
      simp only [Option.map_some'] at h
      injection h with hh
      injection hh with h1 h2
      subst h1
      subst h2
      obtain ⟨i, hi, hlt⟩ := detectChars_eq_some s.data p1 p2 hc
      refine ⟨i, ?_, ?_⟩
      · exact (matchAt_eq_some_iff (s.data.drop i) p1 p2).mp hi
      · intro j hj T L hp
        have hsome := (matchAt_eq_some_iff (s.data.drop j) T L).mpr hp
        rw [hlt j hj] at hsome
        exact Option.noConfusion hsome

/-- Witness for C10: the source-shaped diagnostic carries the pattern at an
offset before which no pattern starts. -/
theorem classifier_characterisation_witness :
    ∃ i, PatAt ("Server Type \"cpx31\" is unavailable in \"hel1\"").data i
        ("cpx31" : String).data ("hel1" : String).data ∧
      ∀ j, j < i → ∀ T L,
        ¬PatAt ("Server Type \"cpx31\" is unavailable in \"hel1\"").data j T L :=
  (classifier_characterisation "Server Type \"cpx31\" is unavailable in \"hel1\"").2
    "cpx31" "hel1" (by decide)
